import Mathlib

/-!
Verification of the clinical-trial-audit pipeline (`src/app.py`).

The file embeds the pure core of the application:
  * `generate_messy_clinical_data` — the synthetic raw-record generator
    (randomness is modelled as an explicit oracle of per-record seeds);
  * `map_to_sdtm` — the SDTM mapper (per-row projection with the
    gender-text lookup-and-fill);
  * `agentic_risk_detection` — the two-rule risk detector;
  * `log_audit_event` — the audit-event constructor (uuid and clock
    reads are modelled as explicit arguments);
  * the compliance-summary block at the bottom of the script
    (`compliance_summary` / `fetch_then_report`).
-/

set_option autoImplicit false

/-- A raw clinical record as produced by `generate_messy_clinical_data`
(`rows.append({...})`, src/app.py lines 85-91).  `age_years` and
`heartRate` may be absent (`None`); `gender_text` is modelled as optional
so that the mapper can be analysed on absent gender as well. -/
structure RawRecord where
  client_code : String
  age_years : Option Nat
  gender_text : Option String
  heartRate : Option Int
  visit_date : String
deriving DecidableEq

/-- A canonical (SDTM-shaped) record, the row type of the data frame
built by `map_to_sdtm` (src/app.py lines 101-109). -/
structure CanonicalRecord where
  USUBJID : String
  AGE : Option Nat
  SEX : String
  HR : Option Int
  VSDTC : String
deriving DecidableEq

/-- The dictionary lookup plus `fillna` of
`raw_df["gender_text"].map({"Male": "M", "Female": "F", "M": "M", "F": "F"}).fillna("U")`:
a value outside the dictionary (or an absent value) becomes `NaN` under
`Series.map` and is then filled with `"U"`. -/
def sex_of (g : Option String) : String :=
  match g with
  | none => "U"
  | some s =>
      if s = "Male" then "M"
      else if s = "Female" then "F"
      else if s = "M" then "M"
      else if s = "F" then "F"
      else "U"

/-- The per-row projection performed column-wise by `map_to_sdtm`
(src/app.py lines 101-109). -/
def map_row (r : RawRecord) : CanonicalRecord :=
  { USUBJID := r.client_code
    AGE := r.age_years
    SEX := sex_of r.gender_text
    HR := r.heartRate
    VSDTC := r.visit_date }

/-- `map_to_sdtm`: the data-frame construction applies the projection to
every row, preserving length and order. -/
def map_to_sdtm (raw : List RawRecord) : List CanonicalRecord :=
  raw.map map_row

/-- C1: the mapper's `sex` is always one of `M`/`F`/`U`; it is `M`
exactly on gender text `Male` or `M`, `F` exactly on `Female` or `F`,
and `U` on every other value, absent included. -/
theorem C1_sex_mapping (r : RawRecord) :
    (map_row r).SEX ∈ (["M", "F", "U"] : List String) ∧
    ((map_row r).SEX = "M" ↔ (r.gender_text = some "Male" ∨ r.gender_text = some "M")) ∧
    ((map_row r).SEX = "F" ↔ (r.gender_text = some "Female" ∨ r.gender_text = some "F")) ∧
    (r.gender_text ≠ some "Male" → r.gender_text ≠ some "M" →
      r.gender_text ≠ some "Female" → r.gender_text ≠ some "F" →
      (map_row r).SEX = "U") := by
  rcases r with ⟨code, age, g, hr, vd⟩
  rcases g with _ | s
  · refine ⟨by simp [map_row, sex_of], ?_, ?_, ?_⟩ <;> simp [map_row, sex_of]
  · by_cases h1 : s = "Male"
    · subst h1
      refine ⟨by simp [map_row, sex_of], ?_, ?_, ?_⟩ <;> simp [map_row, sex_of]
    · by_cases h2 : s = "Female"
      · subst h2
        refine ⟨by simp [map_row, sex_of], ?_, ?_, ?_⟩ <;> simp [map_row, sex_of]
      · by_cases h3 : s = "M"
        · subst h3
          refine ⟨by simp [map_row, sex_of], ?_, ?_, ?_⟩ <;> simp [map_row, sex_of]
        · by_cases h4 : s = "F"
          · subst h4
            refine ⟨by simp [map_row, sex_of], ?_, ?_, ?_⟩ <;>
              simp [map_row, sex_of]
          · refine ⟨by simp [map_row, sex_of, h1, h2, h3, h4], ?_, ?_, ?_⟩ <;>
              simp [map_row, sex_of, h1, h2, h3, h4]

/-- A concrete raw record with unrecognized gender text, exercising the
fallback branch of `C1_sex_mapping`. -/
def rawUnknown : RawRecord :=
  { client_code := "SUBJ-001"
    age_years := none
    gender_text := some "Unknown"
    heartRate := some 400
    visit_date := "2024-01-01" }

/-- Witness for C1 at the concrete record `rawUnknown`. -/
theorem C1_sex_mapping_witness : (map_row rawUnknown).SEX = "U" :=
  (C1_sex_mapping rawUnknown).2.2.2 (by decide) (by decide) (by decide) (by decide)

/-- C7: the mapper is total, length- and order-preserving, and copies
`subjectId`, `age`, `heartRate` and `visitDate` verbatim (absent values
staying absent). -/
theorem C7_mapper_shape (l : List RawRecord) :
    (map_to_sdtm l).length = l.length ∧
    (∀ i : Nat, (map_to_sdtm l).get? i = (l.get? i).map map_row) ∧
    (∀ r : RawRecord,
      (map_row r).USUBJID = r.client_code ∧
      (map_row r).AGE = r.age_years ∧
      (map_row r).HR = r.heartRate ∧
      (map_row r).VSDTC = r.visit_date) := by
  refine ⟨by simp [map_to_sdtm], fun i => by simp [map_to_sdtm], fun r => ?_⟩
  exact ⟨rfl, rfl, rfl, rfl⟩

/-- A risk alert, the row type of the data frame returned by
`agentic_risk_detection` (src/app.py lines 120-135). -/
structure RiskAlert where
  USUBJID : String
  riskCategory : String
  issue : String
  aiReasoning : String
  recommendedAction : String
deriving DecidableEq

/-- The guard `pd.notna(row["HR"]) and row["HR"] > 300`
(src/app.py line 119). -/
def hr_flag (row : CanonicalRecord) : Bool :=
  match row.HR with
  | some v => decide (300 < v)
  | none => false

/-- The Safety alert appended at src/app.py lines 120-126. -/
def hr_alert (row : CanonicalRecord) : RiskAlert :=
  { USUBJID := row.USUBJID
    riskCategory := "Safety"
    issue := "Improbable Heart Rate"
    aiReasoning := "Value exceeds known physiological limits."
    recommendedAction := "Immediate manual review" }

/-- The Data Quality alert appended at src/app.py lines 129-135. -/
def age_alert (row : CanonicalRecord) : RiskAlert :=
  { USUBJID := row.USUBJID
    riskCategory := "Data Quality"
    issue := "Missing Age"
    aiReasoning := "Age required for stratification and analysis."
    recommendedAction := "Query site" }

/-- `agentic_risk_detection` (src/app.py lines 111-137): scan the rows
in order; for each row, first append the heart-rate alert when the guard
holds, then append the missing-age alert when `AGE` is absent. -/
def agentic_risk_detection (sdtm : List CanonicalRecord) : List RiskAlert :=
  sdtm.foldl
    (fun alerts row =>
      let alerts1 := if hr_flag row then alerts ++ [hr_alert row] else alerts
      if row.AGE.isNone then alerts1 ++ [age_alert row] else alerts1)
    []

/-- The alerts a single row contributes, heart-rate alert first. -/
def row_alerts (row : CanonicalRecord) : List RiskAlert :=
  (if hr_flag row then [hr_alert row] else []) ++
    (if row.AGE.isNone then [age_alert row] else [])

theorem detection_foldl_acc (sdtm : List CanonicalRecord)
    (acc : List RiskAlert) :
    sdtm.foldl
      (fun alerts row =>
        let alerts1 := if hr_flag row then alerts ++ [hr_alert row] else alerts
        if row.AGE.isNone then alerts1 ++ [age_alert row] else alerts1)
      acc = acc ++ (sdtm.map row_alerts).flatten := by
  induction sdtm generalizing acc with
  | nil => simp
  | cons c rest ih =>
      rw [List.foldl_cons, ih]
      simp only [List.map_cons]
      by_cases h1 : hr_flag c <;> by_cases h2 : c.AGE.isNone <;>
        simp [row_alerts, h1, h2]

/-- The detector is the in-order concatenation of per-row alert lists. -/
theorem detection_eq_flatten (sdtm : List CanonicalRecord) :
    agentic_risk_detection sdtm = (sdtm.map row_alerts).flatten := by
  have h := detection_foldl_acc sdtm []
  rw [List.nil_append] at h
  exact h

/-- C2: a record with a present heart rate above 300 yields the fixed
Safety alert for its subject id. -/
theorem C2_improbable_heart_rate (c : CanonicalRecord) (v : Int)
    (hv : c.HR = some v) (h300 : 300 < v) :
    ({ USUBJID := c.USUBJID
       riskCategory := "Safety"
       issue := "Improbable Heart Rate"
       aiReasoning := "Value exceeds known physiological limits."
       recommendedAction := "Immediate manual review" } : RiskAlert) ∈
      agentic_risk_detection [c] := by
  have hflag : hr_flag c = true := by
    simp [hr_flag, hv, h300]
  rw [detection_eq_flatten]
  simp [row_alerts, hflag, hr_alert]

/-- A concrete canonical record with heart rate 400 and absent age. -/
def canonHot : CanonicalRecord :=
  { USUBJID := "SUBJ-042", AGE := none, SEX := "U", HR := some 400,
    VSDTC := "2024-01-01" }

/-- Witness for C2 at the concrete record `canonHot`. -/
theorem C2_improbable_heart_rate_witness :
    ({ USUBJID := "SUBJ-042"
       riskCategory := "Safety"
       issue := "Improbable Heart Rate"
       aiReasoning := "Value exceeds known physiological limits."
       recommendedAction := "Immediate manual review" } : RiskAlert) ∈
      agentic_risk_detection [canonHot] :=
  C2_improbable_heart_rate canonHot 400 rfl (by decide)

/-- C3: a record with absent age yields the fixed Data Quality alert for
its subject id, and the age check is independent of the heart-rate
check: a record with absent age and heart rate above 300 yields exactly
both alerts, heart-rate alert first. -/
theorem C3_missing_age (c : CanonicalRecord) (hage : c.AGE = none) :
    ({ USUBJID := c.USUBJID
       riskCategory := "Data Quality"
       issue := "Missing Age"
       aiReasoning := "Age required for stratification and analysis."
       recommendedAction := "Query site" } : RiskAlert) ∈
      agentic_risk_detection [c] ∧
    (∀ v : Int, c.HR = some v → 300 < v →
      agentic_risk_detection [c] = [hr_alert c, age_alert c]) := by
  constructor
  · rw [detection_eq_flatten]
    simp [row_alerts, hage, age_alert]
  · intro v hv h300
    have hflag : hr_flag c = true := by
      simp [hr_flag, hv, h300]
    rw [detection_eq_flatten]
    simp [row_alerts, hage, hflag]

/-- Witness for C3 at the concrete record `canonHot`, which has both an
absent age and a heart rate above 300 and hence yields both alerts. -/
theorem C3_missing_age_witness :
    ({ USUBJID := "SUBJ-042"
       riskCategory := "Data Quality"
       issue := "Missing Age"
       aiReasoning := "Age required for stratification and analysis."
       recommendedAction := "Query site" } : RiskAlert) ∈
      agentic_risk_detection [canonHot] ∧
    agentic_risk_detection [canonHot] = [hr_alert canonHot, age_alert canonHot] :=
  ⟨(C3_missing_age canonHot rfl).1,
   (C3_missing_age canonHot rfl).2 400 rfl (by decide)⟩

theorem row_alerts_length_le (c : CanonicalRecord) : (row_alerts c).length ≤ 2 := by
  unfold row_alerts
  by_cases h1 : hr_flag c <;> by_cases h2 : c.AGE.isNone <;> simp [h1, h2]

theorem detection_length_le (l : List CanonicalRecord) :
    (agentic_risk_detection l).length ≤ 2 * l.length := by
  rw [detection_eq_flatten]
  induction l with
  | nil => simp
  | cons c rest ih =>
      simp only [List.map_cons, List.flatten_cons, List.length_append,
        List.length_cons]
      have := row_alerts_length_le c
      omega

theorem row_alerts_subjid (c : CanonicalRecord) (a : RiskAlert)
    (ha : a ∈ row_alerts c) : a.USUBJID = c.USUBJID := by
  unfold row_alerts at ha
  rcases List.mem_append.1 ha with h | h
  · by_cases hf : hr_flag c = true
    · simp only [hf, if_true, List.mem_singleton] at h
      subst h
      rfl
    · simp [hf] at h
  · by_cases hn : (Option.isNone c.AGE : Bool) = true
    · simp only [hn, if_true, List.mem_singleton] at h
      subst h
      rfl
    · simp [hn] at h

/-- C6: the detector scans in input order (its output is the
concatenation of per-record alert lists), each record contributes at
most two alerts (so at most `2·n` in total), a record with a present age
and an absent-or-plausible heart rate contributes none, every alert
carries the subject id of the record it came from, and the empty input
yields the empty output. -/
theorem C6_detector_shape :
    agentic_risk_detection [] = [] ∧
    (∀ l : List CanonicalRecord,
      agentic_risk_detection l = (l.map row_alerts).flatten) ∧
    (∀ c : CanonicalRecord, (row_alerts c).length ≤ 2) ∧
    (∀ l : List CanonicalRecord,
      (agentic_risk_detection l).length ≤ 2 * l.length) ∧
    (∀ c : CanonicalRecord, c.AGE.isSome →
      (c.HR = none ∨ ∃ v : Int, c.HR = some v ∧ v ≤ 300) →
      row_alerts c = []) ∧
    (∀ (c : CanonicalRecord) (a : RiskAlert),
      a ∈ row_alerts c → a.USUBJID = c.USUBJID) ∧
    (∀ (l : List CanonicalRecord) (a : RiskAlert),
      a ∈ agentic_risk_detection l → ∃ c, c ∈ l ∧ a ∈ row_alerts c) := by
  refine ⟨rfl, detection_eq_flatten, row_alerts_length_le,
    detection_length_le, ?_, row_alerts_subjid, ?_⟩
  · intro c hsome hr
    have hflag : hr_flag c = false := by
      unfold hr_flag
      rcases hr with h | ⟨v, hv, hle⟩
      · rw [h]
      · rw [hv]
        simpa using hle
    have hnone : (Option.isNone c.AGE : Bool) = false := by
      rcases hage : c.AGE with _ | a
      · rw [hage] at hsome
        simp at hsome
      · rfl
    unfold row_alerts
    rw [hflag, hnone]
    simp
  · intro l a ha
    rw [detection_eq_flatten] at ha
    rcases List.mem_flatten.1 ha with ⟨m, hm, ham⟩
    rcases List.mem_map.1 hm with ⟨c, hc, rfl⟩
    exact ⟨c, hc, ham⟩

/-- Witness for C6: a record with a present age and a plausible present
heart rate contributes no alerts, and `canonHot` shows the provenance
clause at a concrete input. -/
theorem C6_detector_shape_witness :
    row_alerts
      { USUBJID := "SUBJ-007", AGE := some 44, SEX := "M", HR := some 72,
        VSDTC := "2024-02-02" } = [] ∧
    (∃ c, c ∈ [canonHot] ∧ hr_alert canonHot ∈ row_alerts c) :=
  ⟨C6_detector_shape.2.2.2.2.1 _ (by decide) (Or.inr ⟨72, rfl, by decide⟩),
   C6_detector_shape.2.2.2.2.2.2 [canonHot] (hr_alert canonHot)
     (by decide)⟩

/-- `sub` matches at the head of `hay` (character-wise). -/
def headMatch : List Char → List Char → Bool
  | [], _ => true
  | _ :: _, [] => false
  | a :: as, b :: bs => a == b && headMatch as bs

/-- `sub` occurs contiguously somewhere in `hay`. -/
def occursIn (sub : List Char) : List Char → Bool
  | [] => headMatch sub []
  | b :: bs => headMatch sub (b :: bs) || occursIn sub bs

/-- Python's `in` operator on strings: `sub in hay` is a contiguous
substring test. -/
def strContains (hay sub : String) : Bool :=
  occursIn sub.toList hay.toList

/-- `risk_keywords` (src/app.py line 327). -/
def risk_keywords : List String :=
  ["error", "fail", "unauthorized", "override", "deleted"]

/-- The derived compliance summary reported by the expander
(src/app.py lines 358-362). -/
structure ComplianceSummary where
  totalEvents : Nat
  riskEventCount : Nat
  activityRate : String
  riskLevel : String
deriving DecidableEq

/-- The compliance block over the fetched actions
(src/app.py lines 324-341): normalize each action with
`.strip().lower()`, count the events, filter the ones containing a risk
keyword, then set `activity_rate` and `risk_level` by the two
reassignments. -/
def compliance_summary (logActions : List String) : ComplianceSummary :=
  let actions := logActions.map (fun a => a.trim.toLower)
  let total_events := actions.length
  let risk_events :=
    actions.filter (fun a => risk_keywords.any (fun k => strContains a k))
  let activity_rate := if 50 ≤ total_events then "High" else "Normal"
  let risk_level0 := if 50 ≤ total_events then "Medium" else "Low"
  let risk_level := if risk_events.isEmpty then risk_level0 else "High"
  { totalEvents := total_events
    riskEventCount := risk_events.length
    activityRate := activity_rate
    riskLevel := risk_level }

theorem filter_of_map_length {α β : Type} (f : α → β) (p : β → Bool)
    (l : List α) :
    ((l.map f).filter p).length = (l.filter (fun a => p (f a))).length := by
  induction l with
  | nil => rfl
  | cons a rest ih =>
      simp only [List.map_cons, List.filter_cons]
      by_cases h : p (f a) <;> simp [h, ih]

theorem risk_level_reassignment (re : List String) (total : Nat) :
    (if re.isEmpty then (if 50 ≤ total then "Medium" else "Low")
      else "High") =
      (if 0 < re.length then "High"
        else if 50 ≤ total then "Medium" else "Low") := by
  cases re with
  | nil => simp
  | cons a rest => simp

/-- C4: over any batch of at most 100 fetched events, the summary counts
every event, counts as risk events exactly those whose
stripped-and-lowercased action contains a risk keyword, rates activity
`High` at 50 or more events, and sets the risk level to `High` exactly
when a risk event exists, else `Medium` at 50 or more events, else
`Low`. -/
theorem C4_compliance_summary (logActions : List String)
    (_hlen : logActions.length ≤ 100) :
    (compliance_summary logActions).totalEvents = logActions.length ∧
    (compliance_summary logActions).riskEventCount =
      (logActions.filter
        (fun a => risk_keywords.any
          (fun k => strContains (a.trim.toLower) k))).length ∧
    (compliance_summary logActions).activityRate =
      (if 50 ≤ logActions.length then "High" else "Normal") ∧
    (compliance_summary logActions).riskLevel =
      (if 0 < (compliance_summary logActions).riskEventCount then "High"
        else if 50 ≤ logActions.length then "Medium" else "Low") := by
  refine ⟨by simp [compliance_summary], ?_, by simp [compliance_summary], ?_⟩
  · simp only [compliance_summary]
    exact filter_of_map_length _ _ _
  · simp only [compliance_summary]
    rw [risk_level_reassignment]
    simp

/-- Witness for C4 on a concrete two-event batch, one event carrying a
risk keyword. -/
theorem C4_compliance_summary_witness :
    (compliance_summary ["  Login OK ", "Unauthorized access"]).totalEvents
        = 2 ∧
    (compliance_summary ["  Login OK ", "Unauthorized access"]).riskLevel
        = (if 0 < (compliance_summary
            ["  Login OK ", "Unauthorized access"]).riskEventCount then
            "High"
          else if 50 ≤ (["  Login OK ", "Unauthorized access"] :
            List String).length then "Medium" else "Low") :=
  ⟨(C4_compliance_summary ["  Login OK ", "Unauthorized access"]
      (by decide)).1,
   (C4_compliance_summary ["  Login OK ", "Unauthorized access"]
      (by decide)).2.2.2⟩

/-- The fetch-and-report path around the compliance block
(src/app.py lines 307-341): a query failure is caught and degrades to an
empty list (`except Exception: logs = []`), and an empty list short-
circuits into the `st.info` branch with no summary computed. -/
def fetch_then_report (fetched : Except String (List String)) :
    Option ComplianceSummary :=
  let logs :=
    match fetched with
    | Except.ok l => l
    | Except.error _ => []
  if logs.isEmpty then none else some (compliance_summary logs)

/-- C5: a failed fetch or an empty event list produces no summary at
all, and any summary that is produced counts at least one event — a
zero-valued summary is never emitted. -/
theorem C5_skip_on_empty_or_failure :
    (∀ e : String, fetch_then_report (Except.error e) = none) ∧
    fetch_then_report (Except.ok []) = none ∧
    (∀ (fetched : Except String (List String)) (s : ComplianceSummary),
      fetch_then_report fetched = some s → 0 < s.totalEvents) := by
  refine ⟨fun e => rfl, rfl, ?_⟩
  intro fetched s hs
  rcases fetched with e | l
  · simp [fetch_then_report] at hs
  · rcases l with _ | ⟨a, rest⟩
    · simp [fetch_then_report] at hs
    · simp [fetch_then_report] at hs
      subst hs
      simp [compliance_summary]

/-- Witness for C5: a one-event fetch yields a summary counting that
event. -/
theorem C5_skip_on_empty_or_failure_witness :
    0 < (compliance_summary ["Login OK"]).totalEvents :=
  C5_skip_on_empty_or_failure.2.2 (Except.ok ["Login OK"])
    (compliance_summary ["Login OK"]) rfl

/-- `faker.random_int(lo, hi)`: a uniform draw from the inclusive range
`[lo, hi]`, modelled as a function of an unconstrained seed so that
every possible outcome of the sampler is covered. -/
def fake_random_int (lo hi seed : Nat) : Nat :=
  lo + seed % (hi + 1 - lo)

/-- The per-record draws consumed by one loop iteration of
`generate_messy_clinical_data` (src/app.py lines 79-91).  Branch seeds
select among the arms of the two `np.random.choice` calls; the date draw
is kept as the already-formatted string `fake.date_this_decade()`
produces. -/
structure RecordSeed where
  codeSeed1 : Nat
  codeSeed2 : Nat
  codeSeed3 : Nat
  ageSeed : Nat
  ageBranchSeed : Nat
  genderSeed : Nat
  hrPlausibleSeed : Nat
  hrImplausibleSeed : Nat
  hrBranchSeed : Nat
  dateDraw : String

/-- The five-way gender vocabulary of src/app.py line 88. -/
def gender_choices : List String :=
  ["Male", "Female", "M", "F", "Unknown"]

/-- `fake.bothify("SUBJ-###")` (src/app.py line 86): the literal prefix
followed by three independently drawn decimal digits. -/
def bothify_subj (d1 d2 d3 : Nat) : String :=
  String.mk ['S', 'U', 'B', 'J', '-',
    Nat.digitChar (d1 % 10), Nat.digitChar (d2 % 10), Nat.digitChar (d3 % 10)]

/-- The heart-rate draw (src/app.py lines 80-83): 70% a plausible value
in `[55,120]`, 20% an implausible value in `[350,1800]`, 10% absent. -/
def gen_hr (s : RecordSeed) : Option Int :=
  if s.hrBranchSeed % 3 = 0 then
    some (fake_random_int 55 120 s.hrPlausibleSeed)
  else if s.hrBranchSeed % 3 = 1 then
    some (fake_random_int 350 1800 s.hrImplausibleSeed)
  else none

/-- The age draw (src/app.py line 87): `np.random.choice` between a
uniform value in `[18,85]` and `None`. -/
def gen_age (s : RecordSeed) : Option Nat :=
  if s.ageBranchSeed % 2 = 0 then some (fake_random_int 18 85 s.ageSeed)
  else none

/-- One iteration of the generation loop (src/app.py lines 79-91). -/
def gen_record (s : RecordSeed) : RawRecord :=
  { client_code := bothify_subj s.codeSeed1 s.codeSeed2 s.codeSeed3
    age_years := gen_age s
    gender_text := some (gender_choices.getD (s.genderSeed % 5) "Unknown")
    heartRate := gen_hr s
    visit_date := s.dateDraw }

/-- `generate_messy_clinical_data` (src/app.py lines 71-93): `n`
independent iterations of the record loop, with the randomness supplied
by the oracle `seeds`. -/
def generate_messy_clinical_data (n : Nat) (seeds : Nat → RecordSeed) :
    List RawRecord :=
  (List.range n).map (fun i => gen_record (seeds i))

theorem fake_random_int_bounds (lo hi seed : Nat) (h : lo ≤ hi) :
    lo ≤ fake_random_int lo hi seed ∧ fake_random_int lo hi seed ≤ hi := by
  unfold fake_random_int
  have hpos : 0 < hi + 1 - lo := by omega
  have hlt := Nat.mod_lt seed hpos
  omega

theorem gen_hr_range (s : RecordSeed) (v : Int) (hv : gen_hr s = some v) :
    (55 ≤ v ∧ v ≤ 120) ∨ (350 ≤ v ∧ v ≤ 1800) := by
  unfold gen_hr at hv
  split at hv
  · have hb := fake_random_int_bounds 55 120 s.hrPlausibleSeed (by omega)
    have hv' := Option.some.inj hv
    left
    omega
  · split at hv
    · have hb := fake_random_int_bounds 350 1800 s.hrImplausibleSeed (by omega)
      have hv' := Option.some.inj hv
      right
      omega
    · exact absurd hv (by simp)

theorem gen_age_range (s : RecordSeed) (a : Nat)
    (ha : gen_age s = some a) : 18 ≤ a ∧ a ≤ 85 := by
  unfold gen_age at ha
  split at ha
  · have hb := fake_random_int_bounds 18 85 s.ageSeed (by omega)
    have ha' := Option.some.inj ha
    omega
  · exact absurd ha (by simp)

/-- C8: for every `n` and every outcome of the random source, the
generator returns exactly `n` records, every present heart rate lies in
`[55,120] ∪ [350,1800]`, and every present age lies in `[18,85]`. -/
theorem C8_generator_ranges (n : Nat) (seeds : Nat → RecordSeed) :
    (generate_messy_clinical_data n seeds).length = n ∧
    (∀ r ∈ generate_messy_clinical_data n seeds,
      (∀ v : Int, r.heartRate = some v →
        ((55 ≤ v ∧ v ≤ 120) ∨ (350 ≤ v ∧ v ≤ 1800))) ∧
      (∀ a : Nat, r.age_years = some a → 18 ≤ a ∧ a ≤ 85)) := by
  constructor
  · simp [generate_messy_clinical_data]
  · intro r hr
    simp only [generate_messy_clinical_data, List.mem_map] at hr
    obtain ⟨i, _, rfl⟩ := hr
    exact ⟨fun v hv => gen_hr_range (seeds i) v hv,
      fun a ha => gen_age_range (seeds i) a ha⟩

/-- An all-zero seed: plausible heart rate 55, age 18, gender `Male`,
subject code `SUBJ-000`. -/
def zeroSeed : RecordSeed :=
  { codeSeed1 := 0, codeSeed2 := 0, codeSeed3 := 0, ageSeed := 0,
    ageBranchSeed := 0, genderSeed := 0, hrPlausibleSeed := 0,
    hrImplausibleSeed := 0, hrBranchSeed := 0, dateDraw := "2024-01-01" }

/-- Witness for C8 at `n = 1` with the all-zero seed oracle. -/
theorem C8_generator_ranges_witness :
    (generate_messy_clinical_data 1 (fun _ => zeroSeed)).length = 1 ∧
    ((((55 : Int) ≤ 55 ∧ (55 : Int) ≤ 120) ∨
      ((350 : Int) ≤ 55 ∧ (55 : Int) ≤ 1800))) :=
  ⟨(C8_generator_ranges 1 (fun _ => zeroSeed)).1,
   ((C8_generator_ranges 1 (fun _ => zeroSeed)).2
      (gen_record zeroSeed) (by decide)).1 55 rfl⟩

/-- An audit event as built by `log_audit_event`
(src/app.py lines 140-146).  The payload dict is modelled as a
key-value list. -/
structure AuditEvent where
  audit_id : String
  timestamp : String
  event_type : String
  details : List (String × String)
deriving DecidableEq

/-- `log_audit_event` (src/app.py lines 140-146).  The ambient effects
`str(uuid.uuid4())` and `datetime.utcnow().isoformat()` are modelled as
the explicit arguments `uuid4` and `utcnow`. -/
def log_audit_event (uuid4 utcnow : String) (event : String)
    (payload : List (String × String)) : AuditEvent :=
  { audit_id := uuid4
    timestamp := utcnow
    event_type := event
    details := payload }

/-- C9: the recorder copies the freshly drawn uuid into `audit_id` and
the clock read into `timestamp`, copies `event_type` and `details`
verbatim, and two calls whose uuid draws differ (a v4 uuid source yields
a fresh identifier per call) never share an `audit_id`. -/
theorem C9_audit_event (u u2 t t2 e e2 : String)
    (p p2 : List (String × String)) (hu : u ≠ u2) :
    (log_audit_event u t e p).audit_id = u ∧
    (log_audit_event u t e p).timestamp = t ∧
    (log_audit_event u t e p).event_type = e ∧
    (log_audit_event u t e p).details = p ∧
    (log_audit_event u t e p).audit_id ≠
      (log_audit_event u2 t2 e2 p2).audit_id :=
  ⟨rfl, rfl, rfl, rfl, hu⟩

/-- Witness for C9 at two concrete calls with distinct uuid draws. -/
theorem C9_audit_event_witness :
    (log_audit_event "7f9c0a" "2024-01-01T00:00:00" "Manual Entry"
        [("USUBJID", "SUBJ-001")]).audit_id ≠
      (log_audit_event "3b2d1e" "2024-01-01T00:00:01" "Manual Entry"
        [("USUBJID", "SUBJ-001")]).audit_id :=
  (C9_audit_event "7f9c0a" "3b2d1e" "2024-01-01T00:00:00"
    "2024-01-01T00:00:01" "Manual Entry" "Manual Entry"
    [("USUBJID", "SUBJ-001")] [("USUBJID", "SUBJ-001")]
    (by decide)).2.2.2.2

/-- The canonical spelling of the `k`-th possible subject code,
`k < 1000`. -/
def subj_code (k : Nat) : String :=
  String.mk ['S', 'U', 'B', 'J', '-',
    Nat.digitChar (k / 100 % 10), Nat.digitChar (k / 10 % 10),
    Nat.digitChar (k % 10)]

theorem digitChar_isDigit :
    ∀ n : Nat, n < 10 → (Nat.digitChar n).isDigit = true := by decide

/-- C10: every generated subject code is the literal `SUBJ-` followed by
exactly three decimal digits; every such code is one of the 1000 codes
`subj_code 0 … subj_code 999`; and a batch of two records can repeat a
code, so uniqueness within a batch is not guaranteed. -/
theorem C10_subject_codes (s : RecordSeed) :
    (∃ c1 c2 c3 : Char,
      (gen_record s).client_code =
        String.mk ['S', 'U', 'B', 'J', '-', c1, c2, c3] ∧
      c1.isDigit ∧ c2.isDigit ∧ c3.isDigit) ∧
    ((gen_record s).client_code ∈ (List.range 1000).map subj_code) ∧
    (∃ seeds : Nat → RecordSeed,
      (generate_messy_clinical_data 2 seeds).map RawRecord.client_code =
        ["SUBJ-000", "SUBJ-000"]) := by
  refine ⟨?_, ?_, ⟨fun _ => zeroSeed, by decide⟩⟩
  · exact ⟨Nat.digitChar (s.codeSeed1 % 10), Nat.digitChar (s.codeSeed2 % 10),
      Nat.digitChar (s.codeSeed3 % 10), rfl,
      digitChar_isDigit _ (Nat.mod_lt _ (by omega)),
      digitChar_isDigit _ (Nat.mod_lt _ (by omega)),
      digitChar_isDigit _ (Nat.mod_lt _ (by omega))⟩
  · apply List.mem_map.2
    refine ⟨s.codeSeed1 % 10 * 100 + s.codeSeed2 % 10 * 10 + s.codeSeed3 % 10,
      List.mem_range.2 (by omega), ?_⟩
    have e1 : (s.codeSeed1 % 10 * 100 + s.codeSeed2 % 10 * 10 +
        s.codeSeed3 % 10) / 100 % 10 = s.codeSeed1 % 10 := by omega
    have e2 : (s.codeSeed1 % 10 * 100 + s.codeSeed2 % 10 * 10 +
        s.codeSeed3 % 10) / 10 % 10 = s.codeSeed2 % 10 := by omega
    have e3 : (s.codeSeed1 % 10 * 100 + s.codeSeed2 % 10 * 10 +
        s.codeSeed3 % 10) % 10 = s.codeSeed3 % 10 := by omega
    unfold subj_code
    rw [e1, e2, e3]
    rfl
